import Mathlib

/-!
Verification of the identifier-normalization and hierarchical-aggregation
query layer of the task-orchestrator dashboard backend
(`src/server_v2.py`, `services/database_pool.py`).

Modelling conventions of the shallow embedding:
* Python/SQL strings are lists of Unicode code points (`Codes := List Nat`);
  all text handled by this layer is ASCII.
* SQLite values are `Val` (NULL, INTEGER, TEXT, BLOB).  Identifier columns
  hold either a 16-byte BLOB or a TEXT encoding; comparisons follow SQLite
  semantics (NULL compares false, BLOB and TEXT never compare equal).
* Timestamp columns (`created_at`, `modified_at`) are modelled as integers
  with the obvious order; `datetime(x) >= datetime('now', '-d days')`
  becomes `now - d ≤ x`.
* Row sets are lists; `fetchone` is `List.find?`; a LEFT JOIN on a unique
  key is `List.find?` of the matching row (ids are unique in the schema, so
  at most one join row arises per task).
* Each endpoint handler is a pure function of an explicit database value;
  a handler that mutates returns the new database alongside the response,
  and an `HTTPException` becomes an error constructor.
-/

namespace Dashboard

/-- Python/SQL strings as lists of code points (ASCII in this layer). -/
abbrev Codes := List Nat

/-- Code points of a Lean string literal, used to write concrete strings. -/
def strCodes (s : String) : Codes := s.toList.map Char.toNat

/-- ASCII hexadecimal digit test (`0-9`, `a-f`, `A-F`), as accepted by
Python's `bytes.fromhex`. -/
def isHexDigitCode (n : Nat) : Bool :=
  (48 ≤ n && n ≤ 57) || (97 ≤ n && n ≤ 102) || (65 ≤ n && n ≤ 70)

/-- Value of a hexadecimal digit code point. -/
def hexVal (n : Nat) : Nat :=
  if n ≤ 57 then n - 48 else if 97 ≤ n then n - 87 else n - 55

/-- Lowercase hexadecimal digit for a value below 16, as produced by
Python's `bytes.hex`. -/
def toHexDigit (v : Nat) : Nat := if v < 10 then v + 48 else v + 87

/-- ASCII lowercasing of one code point (Python `str.lower`, SQL `LOWER`). -/
def lowerCode (n : Nat) : Nat := if 65 ≤ n ∧ n ≤ 90 then n + 32 else n

/-- ASCII uppercasing of one code point (Python `str.upper`, SQL `UPPER`). -/
def upperCode (n : Nat) : Nat := if 97 ≤ n ∧ n ≤ 122 then n - 32 else n

/-- Python `str.lower` on ASCII text. -/
def pyLower (s : Codes) : Codes := s.map lowerCode

/-- Python `str.upper` on ASCII text. -/
def pyUpper (s : Codes) : Codes := s.map upperCode

/-- ASCII whitespace, as stripped by Python `str.strip`. -/
def isSpaceCode (n : Nat) : Bool :=
  n = 32 || n = 9 || n = 10 || n = 13 || n = 11 || n = 12

/-- Python `str.strip`: drop ASCII whitespace from both ends. -/
def pyStrip (s : Codes) : Codes :=
  ((s.dropWhile isSpaceCode).reverse.dropWhile isSpaceCode).reverse

/-- Python `str.replace(a, b)` for single-character arguments. -/
def pyReplaceChar (s : Codes) (a b : Nat) : Codes :=
  s.map (fun c => if c = a then b else c)

/-- Python `str.replace('-', '')`: drop every hyphen. -/
def stripDashes (s : Codes) : Codes := s.filter (fun c => c ≠ 45)

/-- Whitespace-free core of `bytes.fromhex`: consume two hexadecimal
digits per byte, failing on a non-hex digit or an odd digit count.  A
proof device: it agrees with `hexPairsWs` on whitespace-free input
(`hexPairsWs_eq_hexPairs`). -/
def hexPairs : Codes → Option (List Nat)
  | [] => some []
  | [_] => none
  | a :: b :: rest =>
    if isHexDigitCode a && isHexDigitCode b then
      (hexPairs rest).map (fun bs => (hexVal a * 16 + hexVal b) :: bs)
    else none

/-- Python's `bytes.fromhex` loop: ASCII whitespace is skipped between
byte pairs, then two hexadecimal digits are consumed in immediate
succession.  A lone trailing digit, a non-hexadecimal digit, or
whitespace between the two digits of a pair (`"a bcd"`) is the
`ValueError` outcome, `none`; whitespace after a complete pair
(`"ab cd"`) is skipped. -/
def hexPairsWs : Codes → Option (List Nat)
  | [] => some []
  | c :: rest =>
    if isSpaceCode c then hexPairsWs rest
    else
      match rest with
      | [] => none
      | b :: rest2 =>
        if isHexDigitCode c && isHexDigitCode b then
          (hexPairsWs rest2).map (fun bs => (hexVal c * 16 + hexVal b) :: bs)
        else none

/-- Python `bytes.fromhex`; `none` is the `ValueError` outcome. -/
def bytesFromhex (s : Codes) : Option (List Nat) :=
  hexPairsWs s

/-- `_uuid_params` (`server_v2.py:242`): return the pair
`(uuid_bytes_or_None, original_str)` for dual-typed UUID columns.  The
`try/except` around `bytes.fromhex(uuid_str.replace('-', ''))` is the
`Option`: decoding failure yields `none` and never escapes. -/
def uuidParams (s : Codes) : Option (List Nat) × Codes :=
  (bytesFromhex (stripDashes s), s)

/-- Python `bytes.hex`: two lowercase hexadecimal digits per byte. -/
def hexEncode (bs : List Nat) : Codes :=
  bs.flatMap (fun b => [toHexDigit (b / 16), toHexDigit (b % 16)])

/-- The hyphenated rendering `hex[0:8]-hex[8:12]-hex[12:16]-hex[16:20]-hex[20:32]`
built by `dict_from_row` (`database_pool.py:169`). -/
def formatUuid (bs : List Nat) : Codes :=
  (hexEncode bs).take 8
    ++ 45 :: (((hexEncode bs).drop 8).take 4)
    ++ 45 :: (((hexEncode bs).drop 12).take 4)
    ++ 45 :: (((hexEncode bs).drop 16).take 4)
    ++ 45 :: (((hexEncode bs).drop 20).take 12)

/-- SQLite storage values: NULL, INTEGER, TEXT or BLOB. -/
inductive Val : Type
  | null : Val
  | int : Int → Val
  | text : Codes → Val
  | blob : List Nat → Val
  deriving DecidableEq, Repr

/-- The per-value conversion of `dict_from_row` (`database_pool.py:156`):
a 16-byte BLOB is rendered as a hyphenated lowercase UUID string, any other
shape passes through unchanged. -/
def renderValue : Val → Val
  | .blob b => if b.length = 16 then .text (formatUuid b) else .blob b
  | v => v

/-- SQLite `=` as used under a `WHERE` clause: NULL compares false against
everything, and values of different storage classes (in particular BLOB
versus TEXT) never compare equal. -/
def sqlEq : Val → Val → Bool
  | .int a, .int b => a = b
  | .text a, .text b => a = b
  | .blob a, .blob b => a = b
  | _, _ => false

/-- SQLite `CAST(x AS TEXT)`: a BLOB's bytes are reinterpreted as text. -/
def castText : Val → Val
  | .blob b => .text b
  | .int i => .text (strCodes (toString i))
  | .text s => .text s
  | .null => .null

/-- SQLite `LOWER` (ASCII folding; NULL propagates). -/
def sqlLower : Val → Val
  | .text s => .text (pyLower s)
  | v => v

/-- SQLite `UPPER` (ASCII folding; NULL propagates). -/
def sqlUpper : Val → Val
  | .text s => .text (pyUpper s)
  | v => v

/-- SQLite `REPLACE(x, '-', '')` (NULL propagates). -/
def sqlReplaceDash : Val → Val
  | .text s => .text (stripDashes s)
  | v => v

/-- A Python optional byte string bound as an SQL parameter. -/
def optBlob : Option (List Nat) → Val
  | some b => .blob b
  | none => .null

/-- The three bind values `(uuid_bytes, uuid_str, uuid_nodash)` prepared
from a request identifier: decoded bytes (or NULL), the original string,
and the string with hyphens stripped (`None` for the empty string, per the
`if uuid_str` guard). -/
def uuidTriple (s : Codes) : Val × Val × Val :=
  (optBlob (uuidParams s).1, Val.text s,
    if s = [] then Val.null else Val.text (stripDashes s))

/-- The three-way identifier match used by the lookup queries:
`id = ?` (BLOB) `OR LOWER(CAST(id AS TEXT)) = LOWER(?)` (hyphenated text)
`OR LOWER(REPLACE(CAST(id AS TEXT), '-', '')) = LOWER(?)` (bare text). -/
def matchesUuid (stored : Val) (params : Val × Val × Val) : Bool :=
  sqlEq stored params.1
    || sqlEq (sqlLower (castText stored)) (sqlLower params.2.1)
    || sqlEq (sqlLower (sqlReplaceDash (castText stored))) (sqlLower params.2.2)

/-! ## Status vocabulary (`_normalize_status`, `update_task_status`) -/

/-- First-match lookup in an association list of strings (a Python dict
literal of string keys, read with `dict.get`). -/
def lookupCodes : List (Codes × Codes) → Codes → Option Codes
  | [], _ => none
  | e :: rest, k => if e.1 = k then some e.2 else lookupCodes rest k

/-- The fixed table of `_normalize_status` (`server_v2.py:205`). -/
def statusMapTable : List (Codes × Codes) :=
  [ (strCodes "IN_PROGRESS", strCodes "in-progress"),
    (strCodes "INPROGRESS", strCodes "in-progress"),
    (strCodes "DOING", strCodes "in-progress"),
    (strCodes "COMPLETED", strCodes "completed"),
    (strCodes "DONE", strCodes "completed"),
    (strCodes "PENDING", strCodes "pending"),
    (strCodes "TODO", strCodes "pending"),
    (strCodes "BLOCKED", strCodes "blocked"),
    (strCodes "CANCELLED", strCodes "cancelled"),
    (strCodes "DEFERRED", strCodes "deferred") ]

/-- `_normalize_status` on a non-empty string: uppercase-and-trim, map
through the fixed table, fall back to the lowercase of the raw value. -/
def normalizeStatusCodes (r : Codes) : Codes :=
  (lookupCodes statusMapTable (pyUpper (pyStrip r))).getD (pyLower r)

/-- `_normalize_status` (`server_v2.py:200`): `None` and the empty string
are returned unchanged (the `if not raw_status` guard). -/
def normalizeStatus : Option Codes → Option Codes
  | none => none
  | some r => if r = [] then some r else some (normalizeStatusCodes r)

/-- The accepted request vocabulary of the status endpoint
(`server_v2.py:828`). -/
def validStatuses : List Codes :=
  [ strCodes "pending", strCodes "in-progress", strCodes "in_progress",
    strCodes "completed", strCodes "cancelled", strCodes "deferred",
    strCodes "blocked" ]

/-- The UI-to-storage status map of the status endpoint
(`server_v2.py:838`). -/
def dbStatusMap : List (Codes × Codes) :=
  [ (strCodes "pending", strCodes "PENDING"),
    (strCodes "in-progress", strCodes "IN_PROGRESS"),
    (strCodes "in_progress", strCodes "IN_PROGRESS"),
    (strCodes "completed", strCodes "COMPLETED"),
    (strCodes "cancelled", strCodes "CANCELLED"),
    (strCodes "deferred", strCodes "DEFERRED"),
    (strCodes "blocked", strCodes "BLOCKED") ]

/-! ## Percentage rounding

The endpoints compute `round(completed / total * 100)` with Python's
`round`, which rounds to the nearest integer with ties to even.  On the
exact ratio this is the following function (the float division of the
source represents these dashboard-scale ratios exactly enough that the
rounded integer is the same). -/

/-- `round(num / den)` for `den > 0`: nearest integer, ties to even. -/
def roundHalfEvenInt (num den : Int) : Int :=
  let q := Int.fdiv num den
  let r := num - q * den
  if 2 * r < den then q else if den < 2 * r then q + 1
  else if q % 2 = 0 then q else q + 1

/-- A completion percentage: `round(completed / total * 100)` guarded to
`0` when the total is not positive (the `if total > 0 else 0` of the
source, which never divides by zero). -/
def completionPct (completed total : Int) : Int :=
  if 0 < total then roundHalfEvenInt (completed * 100) total else 0

/-! ## Stored rows and the database -/

/-- A row of the `projects` table (load-bearing columns). -/
structure ProjectRow where
  id : Val
  name : Val
  status : Val
  summary : Val
  created_at : Int
  modified_at : Int
  deriving DecidableEq, Repr

/-- A row of the `features` table (load-bearing columns). -/
structure FeatureRow where
  id : Val
  project_id : Val
  name : Val
  status : Val
  created_at : Int
  modified_at : Int
  deriving DecidableEq, Repr

/-- A row of the `tasks` table (the columns named by the schema and the
`INSERT` at `server_v2.py:1294`; `complexity` holds an integer or NULL). -/
structure TaskRow where
  id : Val
  project_id : Val
  feature_id : Val
  title : Val
  summary : Val
  status : Val
  priority : Val
  complexity : Val
  created_at : Int
  modified_at : Int
  deriving DecidableEq, Repr

/-- A row of the `dependencies` table (columns used by the overview). -/
structure DepRow where
  from_task_id : Val
  to_task_id : Val
  deriving DecidableEq, Repr

/-- A row of the `sections` table (columns used by the overview). -/
structure SectionRow where
  entity_type : Codes
  entity_id : Val
  deriving DecidableEq, Repr

/-- The single-file database as seen by this query layer. -/
structure DB where
  projects : List ProjectRow
  features : List FeatureRow
  tasks : List TaskRow
  dependencies : List DepRow
  sections : List SectionRow
  deriving DecidableEq, Repr

/-! ## Small SQL building blocks -/

/-- SQL `COALESCE(a, b)`: the first non-NULL argument. -/
def sqlCoalesce (a b : Val) : Val := if a = Val.null then b else a

/-- `UPPER(status) = 'COMPLETED'`, the completion test of the aggregate
queries. -/
def isCompletedUpper (v : Val) : Bool :=
  sqlEq (sqlUpper v) (Val.text (strCodes "COMPLETED"))

/-- The integer content of a `complexity` cell; NULL contributes nothing
to a SUM. -/
def valInt : Val → Option Int
  | .int i => some i
  | _ => none

/-- `COUNT(DISTINCT x)`: the number of distinct non-NULL values. -/
def countDistinctVals (vs : List Val) : Nat :=
  ((vs.filter (fun v => v ≠ Val.null)).dedup).length

/-- Python truthiness of a cell value (`None`, `''`, `0` and `b''` are
falsy). -/
def truthy : Val → Bool
  | .null => false
  | .text s => !s.isEmpty
  | .int i => i ≠ 0
  | .blob b => !b.isEmpty

/-- Python truthiness of `dict.get`: a missing key is `None`. -/
def truthyO : Option Val → Bool
  | none => false
  | some v => truthy v

/-- Python `x or y`. -/
def pyOr (a b : Option Val) : Option Val := if truthyO a then a else b

/-- GROUP BY, seen-keys pass: keep each row whose key has not occurred
yet. -/
def dedupByKeyAux {α β : Type} [DecidableEq β] (key : α → β) :
    List β → List α → List α
  | _, [] => []
  | seen, x :: xs =>
    if key x ∈ seen then dedupByKeyAux key seen xs
    else x :: dedupByKeyAux key (key x :: seen) xs

/-- GROUP BY on a key column: one representative per distinct key, the
first row of each group. -/
def dedupByKey {α β : Type} [DecidableEq β] (key : α → β) (l : List α) :
    List α :=
  dedupByKeyAux key [] l

/-- Insertion into a sorted list, for the ORDER BY clauses. -/
def insertSorted {α : Type} (le : α → α → Bool) (x : α) : List α → List α
  | [] => [x]
  | y :: ys => if le x y then x :: y :: ys else y :: insertSorted le x ys

/-- Insertion sort, the model of ORDER BY (which order SQLite picks among
ties is unspecified; any reordering works for the properties below). -/
def sortRows {α : Type} (le : α → α → Bool) : List α → List α
  | [] => []
  | x :: xs => insertSorted le x (sortRows le xs)

/-- `ORDER BY modified_at DESC, created_at DESC` comparator. -/
def newestFirst (a b : Int × Int) : Bool :=
  b.1 < a.1 || (a.1 = b.1 && b.2 ≤ a.2)

/-- `LIMIT n` with SQLite semantics: a negative limit means no bound. -/
def applyLimit {α : Type} (n : Int) (xs : List α) : List α :=
  if n < 0 then xs else xs.take n.toNat

/-! ## Row projection (`_task_from_row` over a raw attribute map)

`_task_from_row` consumes a `sqlite3.Row` through `dict_from_row`; the
dictionary is modelled as an association list in which the first binding
of a key wins, so a Python dict update is a cons to the front. -/

/-- Python `dict.get` on the association-list model. -/
def dget : List (String × Val) → String → Option Val
  | [], _ => none
  | e :: rest, k => if e.1 = k then some e.2 else dget rest k

/-- `dict_from_row` (`database_pool.py:156`): every cell through
`renderValue`. -/
def dictFromRow (row : List (String × Val)) : List (String × Val) :=
  row.map (fun kv => (kv.1, renderValue kv.2))

/-- `_normalize_status` applied to a dictionary cell: absent and NULL
stay NULL, text goes through the normalization (status columns are
text). -/
def normStatusVal : Option Val → Val
  | none => .null
  | some (.text s) => if s = [] then .text s else .text (normalizeStatusCodes s)
  | some v => v

/-- A Python value that may be `None`, stored into a dict cell. -/
def optVal : Option Val → Val
  | none => .null
  | some v => v

/-- `_task_from_row` (`server_v2.py:220`): title falls back to name and
then to the empty string, summary falls back to description, status is
normalized, the compatibility duplicates `name`/`description` are set,
and `modified_at` mirrors `updated_at` when absent. -/
def taskFromRow (row : List (String × Val)) : List (String × Val) :=
  let d := dictFromRow row
  let title := (pyOr (pyOr (dget d "title") (dget d "name"))
                  (some (Val.text []))).getD (Val.text [])
  let summary := optVal (pyOr (dget d "summary") (dget d "description"))
  let status := normStatusVal (dget d "status")
  let result :=
    ("description", summary) :: ("name", title) :: ("status", status)
      :: ("summary", summary) :: ("title", title) :: d
  if truthyO (dget d "updated_at") && !truthyO (dget d "modified_at") then
    ("modified_at", optVal (dget d "updated_at")) :: result
  else
    result

/-! ## `GET /api/tasks` (`get_tasks`, `server_v2.py:720`) -/

/-- The effective project of a task, as computed by the query
`COALESCE(t.project_id, f.project_id)` under
`LEFT JOIN features f ON t.feature_id = f.id`: the task's own reference
when non-NULL, else the referenced feature's project reference, else
NULL. -/
def effectiveProjectId (features : List FeatureRow) (t : TaskRow) : Val :=
  sqlCoalesce t.project_id
    ((features.find? (fun f => sqlEq t.feature_id f.id)).elim Val.null
      (fun f => f.project_id))

/-- One record of the flat task list (the populated `TaskStatus` model). -/
structure TaskOut where
  id : Val
  title : Val
  status : Val
  summary : Val
  priority : Val
  complexity : Val
  feature_id : Val
  project_id : Val
  project_name : Val
  feature_name : Val
  created_at : Int
  modified_at : Int
  deriving DecidableEq, Repr

/-- Projection of one joined row of the flat task query: the row passes
through `_task_from_row` (rendering, title fallback, status
normalization) and then `project_id` is overwritten with the computed
project identifier (`server_v2.py:772`). -/
def taskOutOfRow (db : DB) (t : TaskRow) : TaskOut :=
  let jf := db.features.find? (fun f => sqlEq t.feature_id f.id)
  let cpid := effectiveProjectId db.features t
  let jp := db.projects.find? (fun p => sqlEq cpid p.id)
  { id := renderValue t.id
    title := if truthy (renderValue t.title) then renderValue t.title
             else Val.text []
    status := normStatusVal (some (renderValue t.status))
    summary := renderValue t.summary
    priority := renderValue t.priority
    complexity := renderValue t.complexity
    feature_id := renderValue t.feature_id
    project_id := renderValue cpid
    project_name := jp.elim Val.null (fun p => p.name)
    feature_name := jf.elim Val.null (fun f => f.name)
    created_at := t.created_at
    modified_at := t.modified_at }

/-- The optional filters of the flat task query.  A falsy (empty) filter
string is skipped, matching the `if feature_id:` guards; the feature
filter uses the three-way identifier match, status and priority compare
directly. -/
def taskFilterOk (featureId statusF priorityF : Option Codes)
    (t : TaskRow) : Bool :=
  (match featureId with
   | none => true
   | some fid => fid = [] || matchesUuid t.feature_id (uuidTriple fid))
  && (match statusF with
      | none => true
      | some s => s = [] || sqlEq t.status (Val.text s))
  && (match priorityF with
      | none => true
      | some p => p = [] || sqlEq t.priority (Val.text p))

/-- The framework default of the `limit` query parameter
(`Query(1000)`). -/
def defaultTasksLimit : Int := 1000

/-- `GET /api/tasks`: filter, `ORDER BY created_at DESC`, `LIMIT`, then
project each row. -/
def getTasks (db : DB) (featureId statusF priorityF : Option Codes)
    (limit : Int) : List TaskOut :=
  let rows := db.tasks.filter (taskFilterOk featureId statusF priorityF)
  let sorted := sortRows (fun a b => b.created_at ≤ a.created_at) rows
  (applyLimit limit sorted).map (taskOutOfRow db)

/-- `GET /api/tasks` with the `limit` parameter left unsupplied. -/
def getTasksDefault (db : DB) (featureId statusF priorityF : Option Codes) :
    List TaskOut :=
  getTasks db featureId statusF priorityF defaultTasksLimit

/-! ## `GET /api/projects/summary` (`get_projects_summary`, `server_v2.py:493`) -/

/-- `tasks t LEFT JOIN features f2 ON t.feature_id = f2.id`: every task
paired with each matching feature, or with nothing when no feature
matches. -/
def leftJoinTF (tasks : List TaskRow) (features : List FeatureRow) :
    List (TaskRow × Option FeatureRow) :=
  tasks.flatMap (fun t =>
    match features.filter (fun f => sqlEq t.feature_id f.id) with
    | [] => [(t, none)]
    | ms => ms.map (fun f => (t, some f)))

/-- The membership test `t.project_id = p.id OR f2.project_id = p.id` of
the summary sub-queries, on one joined row. -/
def summaryRowInProject (p : ProjectRow)
    (tf : TaskRow × Option FeatureRow) : Bool :=
  sqlEq tf.1.project_id p.id
    || tf.2.elim false (fun f => sqlEq f.project_id p.id)

/-- One record of the `/api/projects/summary` response. -/
structure SummaryRecord where
  id : Val
  name : Val
  status : Val
  feature_count : Nat
  task_count : Nat
  completed_task_count : Nat
  completed_feature_count : Nat
  task_completion_percentage : Int
  complexity_completion_percentage : Int
  feature_completion_percentage : Int
  total_complexity : Int
  completed_complexity : Int
  modified_at : Int
  created_at : Int
  deriving DecidableEq, Repr

/-- The summary record of one project: the sub-query aggregates of
`server_v2.py:506` and the percentage block of `server_v2.py:561`. -/
def summaryRecordOf (db : DB) (p : ProjectRow) : SummaryRecord :=
  let rows := (leftJoinTF db.tasks db.features).filter (summaryRowInProject p)
  let completedRows := rows.filter (fun tf => isCompletedUpper tf.1.status)
  let task_count := countDistinctVals (rows.map (fun tf => tf.1.id))
  let completed_task_count :=
    countDistinctVals (completedRows.map (fun tf => tf.1.id))
  let total_complexity :=
    (rows.filterMap (fun tf => valInt tf.1.complexity)).sum
  let completed_complexity :=
    (completedRows.filterMap (fun tf => valInt tf.1.complexity)).sum
  let projFeatures := db.features.filter (fun f => sqlEq f.project_id p.id)
  let feature_count := countDistinctVals (projFeatures.map (fun f => f.id))
  let completed_feature_count :=
    countDistinctVals
      ((projFeatures.filter (fun f => isCompletedUpper f.status)).map
        (fun f => f.id))
  { id := renderValue p.id
    name := renderValue p.name
    status := renderValue p.status
    feature_count := feature_count
    task_count := task_count
    completed_task_count := completed_task_count
    completed_feature_count := completed_feature_count
    task_completion_percentage :=
      completionPct completed_task_count task_count
    complexity_completion_percentage :=
      completionPct completed_complexity total_complexity
    feature_completion_percentage :=
      completionPct completed_feature_count feature_count
    total_complexity := total_complexity
    completed_complexity := completed_complexity
    modified_at := p.modified_at
    created_at := p.created_at }

/-- `GET /api/projects/summary`: `GROUP BY p.id`,
`ORDER BY p.modified_at DESC, p.created_at DESC`, one record per
project. -/
def getProjectsSummary (db : DB) : List SummaryRecord :=
  (sortRows
      (fun a b => newestFirst (a.modified_at, a.created_at)
        (b.modified_at, b.created_at))
      (dedupByKey (fun p => p.id) db.projects)).map (summaryRecordOf db)

/-! ## `GET /api/projects/{id}/overview` (`get_project_overview`,
`server_v2.py:1382`)

After the multi-form project lookup, every sub-query compares stored
references against `project_id_bytes` only (the comment at
`server_v2.py:1413` — "we need bytes for comparisons"), bound here as
`pbVal`. -/

/-- Project membership of a task in the overview sub-queries:
`t.project_id = ? OR t.feature_id IN (SELECT id FROM features WHERE
project_id = ?)` (equivalently the LEFT JOIN form of the count
queries), with the binary-only parameter. -/
def overviewInProj (db : DB) (pbVal : Val) (t : TaskRow) : Bool :=
  sqlEq t.project_id pbVal
    || db.features.any
        (fun f => sqlEq f.project_id pbVal && sqlEq t.feature_id f.id)

/-- `SELECT COUNT(*) ... WHERE t.project_id = ? OR f.project_id = ?`
(`server_v2.py:1505`). -/
def overviewTotalTaskCount (db : DB) (pbVal : Val) : Nat :=
  (db.tasks.filter (overviewInProj db pbVal)).length

/-- The unfiltered completed-task count (`server_v2.py:1512`). -/
def overviewTotalCompletedCount (db : DB) (pbVal : Val) : Nat :=
  (db.tasks.filter
    (fun t => overviewInProj db pbVal t && isCompletedUpper t.status)).length

/-- `COALESCE(SUM(t.complexity), 0)` over the project's tasks
(`server_v2.py:1521`). -/
def overviewTotalComplexity (db : DB) (pbVal : Val) : Int :=
  ((db.tasks.filter (overviewInProj db pbVal)).filterMap
    (fun t => valInt t.complexity)).sum

/-- The completed-complexity sum (`server_v2.py:1528`). -/
def overviewCompletedComplexity (db : DB) (pbVal : Val) : Int :=
  ((db.tasks.filter
      (fun t => overviewInProj db pbVal t && isCompletedUpper t.status)).filterMap
    (fun t => valInt t.complexity)).sum

/-- `SELECT * FROM features WHERE project_id = ?` with the binary-only
parameter (`server_v2.py:1418` and `server_v2.py:1537`). -/
def overviewFeatureRows (db : DB) (pbVal : Val) : List FeatureRow :=
  db.features.filter (fun f => sqlEq f.project_id pbVal)

/-- `COUNT(*)` of the project's features (`server_v2.py:1537`). -/
def overviewTotalFeatures (db : DB) (pbVal : Val) : Nat :=
  (overviewFeatureRows db pbVal).length

/-- The completed-feature count (`server_v2.py:1543`). -/
def overviewCompletedFeatures (db : DB) (pbVal : Val) : Nat :=
  ((overviewFeatureRows db pbVal).filter
    (fun f => isCompletedUpper f.status)).length

/-- One entry of the overview's `features` array. -/
structure OverviewFeature where
  id : Val
  name : Val
  status : Val
  task_count : Nat
  completed_count : Nat
  in_progress_count : Nat
  deriving DecidableEq, Repr

/-- One entry of the overview's `tasks` array. -/
structure OverviewTask where
  id : Val
  title : Val
  status : Val
  priority : Val
  complexity : Val
  feature_name : Val
  modified_at : Int
  deriving DecidableEq, Repr

/-- The `stats` block of the overview response. -/
structure OverviewStats where
  feature_count : Nat
  task_count : Nat
  completed_count : Nat
  dependency_count : Nat
  section_count : Nat
  total_task_count : Nat
  total_completed_count : Nat
  task_completion_percentage : Int
  complexity_completion_percentage : Int
  feature_completion_percentage : Int
  deriving DecidableEq, Repr

/-- The overview response. -/
structure Overview where
  project_id : Val
  project_name : Val
  project_summary : Val
  project_status : Val
  created_at : Int
  modified_at : Int
  features : List OverviewFeature
  tasks : List OverviewTask
  stats : OverviewStats
  deriving DecidableEq, Repr

/-- The feature list with per-feature task counts (`server_v2.py:1418`):
`LEFT JOIN tasks t ON t.feature_id = f.id`, `GROUP BY f.id`, ordered
newest first.  Here `t.status = 'COMPLETED'` is the direct comparison of
the source (no `UPPER`). -/
def overviewFeatureEntries (db : DB) (pbVal : Val) : List OverviewFeature :=
  (sortRows
      (fun a b => newestFirst (a.modified_at, a.created_at)
        (b.modified_at, b.created_at))
      (dedupByKey (fun f => f.id) (overviewFeatureRows db pbVal))).map
    (fun f =>
      let joined := db.tasks.filter (fun t => sqlEq t.feature_id f.id)
      { id := renderValue f.id
        name := renderValue f.name
        status := renderValue f.status
        task_count := countDistinctVals (joined.map (fun t => t.id))
        completed_count :=
          (joined.filter
            (fun t => sqlEq t.status (Val.text (strCodes "COMPLETED")))).length
        in_progress_count :=
          (joined.filter
            (fun t => sqlEq t.status (Val.text (strCodes "IN_PROGRESS")))).length })

/-- The recency window `datetime(t.modified_at) >= datetime('now',
'-{days} days')`, applied only when the `days` parameter is present. -/
def overviewWindowOk (days : Option Int) (now : Int) (t : TaskRow) : Bool :=
  match days with
  | none => true
  | some d => decide (now - d ≤ t.modified_at)

/-- The display projection of one overview task row
(`server_v2.py:1466`): through `_task_from_row`, keeping the fields the
response lists. -/
def overviewTaskEntry (db : DB) (t : TaskRow) : OverviewTask :=
  { id := renderValue t.id
    title := if truthy (renderValue t.title) then renderValue t.title
             else Val.text []
    status := normStatusVal (some (renderValue t.status))
    priority := renderValue t.priority
    complexity := renderValue t.complexity
    feature_name :=
      (db.features.find? (fun f => sqlEq t.feature_id f.id)).elim Val.null
        (fun f => f.name)
    modified_at := t.modified_at }

/-- The displayed task list (`server_v2.py:1451`): project membership,
optional recency window, newest first, capped at 50. -/
def overviewDisplayTasks (db : DB) (pbVal : Val) (days : Option Int)
    (now : Int) : List OverviewTask :=
  ((sortRows
      (fun a b => newestFirst (a.modified_at, a.created_at)
        (b.modified_at, b.created_at))
      (db.tasks.filter
        (fun t => overviewInProj db pbVal t
          && overviewWindowOk days now t))).take 50).map
    (overviewTaskEntry db)

/-- The dependency count (`server_v2.py:1478`): dependencies whose
`from_task_id` is among the project's task identifiers. -/
def overviewDepCount (db : DB) (pbVal : Val) : Nat :=
  (db.dependencies.filter
    (fun dp => db.tasks.any
      (fun t => overviewInProj db pbVal t && sqlEq dp.from_task_id t.id))).length

/-- The section count (`server_v2.py:1488`): sections attached to the
project, its features, or its tasks. -/
def overviewSectionCount (db : DB) (pbVal : Val) : Nat :=
  (db.sections.filter (fun s =>
    (s.entity_type = strCodes "PROJECT" && sqlEq s.entity_id pbVal)
    || (s.entity_type = strCodes "FEATURE"
        && db.features.any
            (fun f => sqlEq f.project_id pbVal && sqlEq s.entity_id f.id))
    || (s.entity_type = strCodes "TASK"
        && db.tasks.any
            (fun t => overviewInProj db pbVal t && sqlEq s.entity_id t.id)))).length

/-- The overview body once the project row is found: display lists from
the windowed queries, percentages from the unfiltered totals
(`server_v2.py:1550`). -/
def buildOverview (db : DB) (pid : Codes) (days : Option Int) (now : Int)
    (p : ProjectRow) : Overview :=
  let pbVal := (uuidTriple pid).1
  let features := overviewFeatureEntries db pbVal
  let tasks := overviewDisplayTasks db pbVal days now
  { project_id := renderValue p.id
    project_name := renderValue p.name
    project_summary := renderValue p.summary
    project_status := renderValue p.status
    created_at := p.created_at
    modified_at := p.modified_at
    features := features
    tasks := tasks
    stats :=
      { feature_count := features.length
        task_count := tasks.length
        completed_count :=
          (tasks.filter
            (fun t => t.status = Val.text (strCodes "completed"))).length
        dependency_count := overviewDepCount db pbVal
        section_count := overviewSectionCount db pbVal
        total_task_count := overviewTotalTaskCount db pbVal
        total_completed_count := overviewTotalCompletedCount db pbVal
        task_completion_percentage :=
          completionPct (overviewTotalCompletedCount db pbVal)
            (overviewTotalTaskCount db pbVal)
        complexity_completion_percentage :=
          completionPct (overviewCompletedComplexity db pbVal)
            (overviewTotalComplexity db pbVal)
        feature_completion_percentage :=
          completionPct (overviewCompletedFeatures db pbVal)
            (overviewTotalFeatures db pbVal) } }

/-- `GET /api/projects/{id}/overview`: the project is found with the
three-way identifier match; `none` is the 404 outcome. -/
def getProjectOverview (db : DB) (pid : Codes) (days : Option Int)
    (now : Int) : Option Overview :=
  match db.projects.find? (fun p => matchesUuid p.id (uuidTriple pid)) with
  | none => none
  | some p => some (buildOverview db pid days now p)

/-! ## `PUT /api/tasks/{id}/status` (`update_task_status`,
`server_v2.py:818`) -/

/-- The outcome of a status update: a 400 validation rejection, a 404,
the 500 of a failed re-select, or the updated row. -/
inductive UpdateStatusResult : Type
  | badRequest : UpdateStatusResult
  | notFound : UpdateStatusResult
  | retrieveFailed : UpdateStatusResult
  | ok : TaskRow → UpdateStatusResult
  deriving DecidableEq, Repr

/-- `PUT /api/tasks/{id}/status`: validate the request vocabulary before
touching storage, map to the uppercase storage form, find the row with
the three-way match, update status and `modified_at` in one unit, then
re-select.  The database value travels alongside the response; the 400
path returns it untouched.  (The response body projects the row through
`_task_from_row`; the raw row is carried here.) -/
def updateTaskStatus (db : DB) (taskId : Codes) (status : Codes)
    (now : Int) : UpdateStatusResult × DB :=
  let normalized := pyReplaceChar (pyLower status) 95 45
  if normalized ∈ validStatuses then
    let dbStatus := (lookupCodes dbStatusMap normalized).getD (pyUpper status)
    let params := uuidTriple taskId
    match db.tasks.find? (fun t => matchesUuid t.id params) with
    | none => (.notFound, db)
    | some row =>
      let db2 : DB :=
        { db with
          tasks := db.tasks.map (fun t =>
            if sqlEq t.id row.id then
              { t with status := Val.text dbStatus, modified_at := now }
            else t) }
      match db2.tasks.find? (fun t => matchesUuid t.id params) with
      | none => (.retrieveFailed, db2)
      | some updated => (.ok updated, db2)
  else (.badRequest, db)

/-! ## Concrete sample data (for witnesses and counterexamples) -/

/-- The 16 bytes of the identifier `00112233-4455-6677-8899-aabbccddeeff`. -/
def sampleProjectId : List Nat :=
  [0x00, 0x11, 0x22, 0x33, 0x44, 0x55, 0x66, 0x77,
   0x88, 0x99, 0xaa, 0xbb, 0xcc, 0xdd, 0xee, 0xff]

/-- That identifier in hyphenated text form. -/
def sampleProjectIdStr : Codes :=
  strCodes "00112233-4455-6677-8899-aabbccddeeff"

/-- A project stored with a binary identifier. -/
def sampleProject : ProjectRow :=
  { id := Val.blob sampleProjectId
    name := Val.text (strCodes "Proj")
    status := Val.text (strCodes "IN_PROGRESS")
    summary := Val.null
    created_at := 1
    modified_at := 5 }

/-- A completed task of complexity 8 attached directly to the sample
project. -/
def sampleTaskDone : TaskRow :=
  { id := Val.blob [0,0,0,0,0,0,0,0,0,0,0,0,0,0,0,1]
    project_id := Val.blob sampleProjectId
    feature_id := Val.null
    title := Val.text (strCodes "a")
    summary := Val.null
    status := Val.text (strCodes "COMPLETED")
    priority := Val.null
    complexity := Val.int 8
    created_at := 2
    modified_at := 6 }

/-- A pending task of complexity 2 attached directly to the sample
project. -/
def sampleTaskPending : TaskRow :=
  { id := Val.blob [0,0,0,0,0,0,0,0,0,0,0,0,0,0,0,2]
    project_id := Val.blob sampleProjectId
    feature_id := Val.null
    title := Val.text (strCodes "b")
    summary := Val.null
    status := Val.text (strCodes "PENDING")
    priority := Val.null
    complexity := Val.int 2
    created_at := 3
    modified_at := 7 }

/-- One project, two direct tasks (one completed). -/
def sampleDB : DB :=
  { projects := [sampleProject]
    features := []
    tasks := [sampleTaskDone, sampleTaskPending]
    dependencies := []
    sections := [] }

/-- One project and nothing else. -/
def emptyProjectDB : DB :=
  { projects := [sampleProject]
    features := []
    tasks := []
    dependencies := []
    sections := [] }

/-- A feature whose project reference is stored in hyphenated text form
rather than as the 16-byte binary form. -/
def textRefFeature : FeatureRow :=
  { id := Val.blob [0,0,0,0,0,0,0,0,0,0,0,0,0,0,0,3]
    project_id := Val.text sampleProjectIdStr
    name := Val.text (strCodes "F")
    status := Val.text (strCodes "PENDING")
    created_at := 1
    modified_at := 1 }

/-- The sample project together with the text-referenced feature. -/
def mixedEncodingDB : DB :=
  { projects := [sampleProject]
    features := [textRefFeature]
    tasks := []
    dependencies := []
    sections := [] }

/-- The summary record the endpoint computes for `sampleDB`: two resolved
tasks, one completed (50%), complexity 8 of 10 completed (80%), no
features. -/
def sampleSummaryRecord : SummaryRecord :=
  { id := Val.text sampleProjectIdStr
    name := Val.text (strCodes "Proj")
    status := Val.text (strCodes "IN_PROGRESS")
    feature_count := 0
    task_count := 2
    completed_task_count := 1
    completed_feature_count := 0
    task_completion_percentage := 50
    complexity_completion_percentage := 80
    feature_completion_percentage := 0
    total_complexity := 10
    completed_complexity := 8
    modified_at := 5
    created_at := 1 }

/-- The overview the endpoint computes for `emptyProjectDB` (with any
recency window): empty lists, all-zero stats. -/
def sampleOverview : Overview :=
  { project_id := Val.text sampleProjectIdStr
    project_name := Val.text (strCodes "Proj")
    project_summary := Val.null
    project_status := Val.text (strCodes "IN_PROGRESS")
    created_at := 1
    modified_at := 5
    features := []
    tasks := []
    stats :=
      { feature_count := 0
        task_count := 0
        completed_count := 0
        dependency_count := 0
        section_count := 0
        total_task_count := 0
        total_completed_count := 0
        task_completion_percentage := 0
        complexity_completion_percentage := 0
        feature_completion_percentage := 0 } }

/-! ## Helper lemmas: the hexadecimal codec -/

theorem hexVal_lt_16 {n : Nat} (h : isHexDigitCode n = true) : hexVal n < 16 := by
  simp only [isHexDigitCode, Bool.or_eq_true, Bool.and_eq_true,
    decide_eq_true_eq] at h
  unfold hexVal
  split_ifs <;> omega

theorem toHexDigit_hexVal {n : Nat} (h : isHexDigitCode n = true) :
    toHexDigit (hexVal n) = lowerCode n := by
  simp only [isHexDigitCode, Bool.or_eq_true, Bool.and_eq_true,
    decide_eq_true_eq] at h
  unfold toHexDigit hexVal lowerCode
  split_ifs <;> omega

theorem hexDigit_bounds {n : Nat} (h : isHexDigitCode n = true) :
    n ≠ 45 ∧ n ≠ 32 := by
  simp only [isHexDigitCode, Bool.or_eq_true, Bool.and_eq_true,
    decide_eq_true_eq] at h
  omega

/-- On an even-length all-hexadecimal string, `hexPairs` succeeds and
re-encoding its bytes lowercases the string. -/
theorem hexPairs_roundTrip :
    ∀ s : Codes, (∀ n ∈ s, isHexDigitCode n = true) → s.length % 2 = 0 →
      ∃ bs, hexPairs s = some bs ∧ hexEncode bs = s.map lowerCode ∧
        2 * bs.length = s.length := by
  intro s
  induction s using hexPairs.induct with
  | case1 =>
    intro _ _
    exact ⟨[], rfl, rfl, rfl⟩
  | case2 a =>
    intro _ hlen
    simp at hlen
  | case3 a b rest hab ih =>
    intro hhex hlen
    have ha : isHexDigitCode a = true := hhex a (by simp)
    have hb : isHexDigitCode b = true := hhex b (by simp)
    have hrest : ∀ n ∈ rest, isHexDigitCode n = true := by
      intro n hn; exact hhex n (by simp [hn])
    have hlen2 : rest.length % 2 = 0 := by
      simp only [List.length_cons] at hlen; omega
    obtain ⟨bs, hbs, henc, hl⟩ := ih hrest hlen2
    refine ⟨(hexVal a * 16 + hexVal b) :: bs, ?_, ?_, ?_⟩
    · simp [hexPairs, ha, hb, hbs]
    · have hdiv : (hexVal a * 16 + hexVal b) / 16 = hexVal a := by
        have := hexVal_lt_16 hb; omega
      have hmod : (hexVal a * 16 + hexVal b) % 16 = hexVal b := by
        have := hexVal_lt_16 hb; omega
      simp only [hexEncode, List.flatMap_cons] at *
      simp [hdiv, hmod, toHexDigit_hexVal ha, toHexDigit_hexVal hb, henc]
    · simp only [List.length_cons]; omega
  | case4 a b rest hab =>
    intro hhex _
    have ha : isHexDigitCode a = true := hhex a (by simp)
    have hb : isHexDigitCode b = true := hhex b (by simp)
    simp [ha, hb] at hab

/-- `hexPairs` fails exactly on an odd digit count or a non-hexadecimal
digit. -/
theorem hexPairs_eq_none_iff :
    ∀ s : Codes, hexPairs s = none ↔
      ¬ (s.length % 2 = 0 ∧ ∀ n ∈ s, isHexDigitCode n = true) := by
  intro s
  induction s using hexPairs.induct with
  | case1 => simp [hexPairs]
  | case2 a => simp [hexPairs]
  | case3 a b rest hab ih =>
    have ha : isHexDigitCode a = true := by
      rcases Bool.and_eq_true .. |>.mp hab with ⟨h1, _⟩; exact h1
    have hb : isHexDigitCode b = true := by
      rcases Bool.and_eq_true .. |>.mp hab with ⟨_, h2⟩; exact h2
    rw [show hexPairs (a :: b :: rest)
          = (hexPairs rest).map (fun bs => (hexVal a * 16 + hexVal b) :: bs) by
        simp [hexPairs, hab]]
    rw [show (hexPairs rest).map
          (fun bs => (hexVal a * 16 + hexVal b) :: bs) = none ↔
          hexPairs rest = none by cases hexPairs rest <;> simp]
    rw [ih]
    simp only [List.length_cons, List.mem_cons]
    constructor
    · intro h hc
      exact h ⟨by omega, fun n hn => hc.2 n (Or.inr (Or.inr hn))⟩
    · intro h hc
      refine h ⟨by omega, fun n hn => ?_⟩
      rcases hn with h1 | h1
      · exact h1 ▸ ha
      rcases h1 with h2 | h2
      · exact h2 ▸ hb
      · exact hc.2 n h2
  | case4 a b rest hab =>
    rw [show hexPairs (a :: b :: rest) = none by simp [hexPairs, hab]]
    simp only [List.length_cons, List.mem_cons, true_iff]
    intro hc
    have ha : isHexDigitCode a = true := hc.2 a (Or.inl rfl)
    have hb : isHexDigitCode b = true := hc.2 b (Or.inr (Or.inl rfl))
    simp [ha, hb] at hab

theorem lowerCode_dash : lowerCode 45 = 45 := by decide

/-- An all-hexadecimal group passes the hyphen filter unchanged. -/
theorem filter_dash_of_hex {g : Codes}
    (h : ∀ n ∈ g, isHexDigitCode n = true) :
    g.filter (fun c => c ≠ 45) = g :=
  List.filter_eq_self.mpr fun a ha => by
    have := (hexDigit_bounds (h a ha)).1
    simp [this]

/-- A hexadecimal digit is not ASCII whitespace. -/
theorem hexDigit_not_space {n : Nat} (h : isHexDigitCode n = true) :
    isSpaceCode n = false := by
  simp only [isHexDigitCode, Bool.or_eq_true, Bool.and_eq_true,
    decide_eq_true_eq] at h
  simp only [isSpaceCode, Bool.or_eq_true, decide_eq_true_eq,
    Bool.or_eq_false_iff, decide_eq_false_iff_not]
  omega

/-- On whitespace-free input the `bytes.fromhex` loop never takes its
skip branch, so it is the plain two-digit consumer. -/
theorem hexPairsWs_eq_hexPairs :
    ∀ s : Codes, (∀ n ∈ s, isSpaceCode n = false) →
      hexPairsWs s = hexPairs s := by
  intro s
  induction s using hexPairs.induct with
  | case1 => intro _; rfl
  | case2 a =>
    intro h
    have ha : isSpaceCode a = false := h a (by simp)
    simp [hexPairsWs, hexPairs, ha]
  | case3 a b rest hab ih =>
    intro h
    have ha : isSpaceCode a = false := h a (by simp)
    have hrest : ∀ n ∈ rest, isSpaceCode n = false := by
      intro n hn; exact h n (by simp [hn])
    simp [hexPairsWs, hexPairs, ha, hab, ih hrest]
  | case4 a b rest hab =>
    intro h
    have ha : isSpaceCode a = false := h a (by simp)
    simp [hexPairsWs, hexPairs, ha, hab]

/-- Cutting the 8-4-4-4-12 slices back out of a 32-digit encoding. -/
theorem formatUuid_groups {bs : List Nat} {m1 m2 m3 m4 m5 : Codes}
    (l1 : m1.length = 8) (l2 : m2.length = 4) (l3 : m3.length = 4)
    (l4 : m4.length = 4) (l5 : m5.length = 12)
    (h : hexEncode bs = m1 ++ (m2 ++ (m3 ++ (m4 ++ m5)))) :
    formatUuid bs
      = m1 ++ 45 :: (m2 ++ 45 :: (m3 ++ 45 :: (m4 ++ 45 :: m5))) := by
  have e12 : (m1 ++ m2).length = 12 := by simp [l1, l2]
  have e16 : ((m1 ++ m2) ++ m3).length = 16 := by simp [l1, l2, l3]
  have e20 : (((m1 ++ m2) ++ m3) ++ m4).length = 20 := by
    simp [l1, l2, l3, l4]
  have a12 : hexEncode bs = (m1 ++ m2) ++ (m3 ++ (m4 ++ m5)) := by
    rw [h]; simp [List.append_assoc]
  have a16 : hexEncode bs = ((m1 ++ m2) ++ m3) ++ (m4 ++ m5) := by
    rw [h]; simp [List.append_assoc]
  have a20 : hexEncode bs = (((m1 ++ m2) ++ m3) ++ m4) ++ m5 := by
    rw [h]; simp [List.append_assoc]
  unfold formatUuid
  rw [show (hexEncode bs).take 8 = m1 by rw [h]; exact List.take_left' l1,
    show ((hexEncode bs).drop 8).take 4 = m2 by
      rw [h, List.drop_left' l1]; exact List.take_left' l2,
    show ((hexEncode bs).drop 12).take 4 = m3 by
      rw [a12, List.drop_left' e12]; exact List.take_left' l3,
    show ((hexEncode bs).drop 16).take 4 = m4 by
      rw [a16, List.drop_left' e16]; exact List.take_left' l4,
    show ((hexEncode bs).drop 20).take 12 = m5 by
      rw [a20, List.drop_left' e20]
      exact List.take_of_length_le (by omega)]
  simp [List.append_assoc]

/-- C5. For every well-formed hyphenated identifier string — five groups
of 8, 4, 4, 4 and 12 hexadecimal digits of any letter case, joined by
hyphens — decoding (`_uuid_params`) yields a 16-byte binary form whose
display rendering (`dict_from_row`) reproduces the string lowercased,
with the canonical 8-4-4-4-12 hyphenation; and the text form of the pair
is the original string. -/
theorem c5_render_decode_roundtrip (g1 g2 g3 g4 g5 : Codes)
    (l1 : g1.length = 8) (l2 : g2.length = 4) (l3 : g3.length = 4)
    (l4 : g4.length = 4) (l5 : g5.length = 12)
    (h1 : ∀ n ∈ g1, isHexDigitCode n = true)
    (h2 : ∀ n ∈ g2, isHexDigitCode n = true)
    (h3 : ∀ n ∈ g3, isHexDigitCode n = true)
    (h4 : ∀ n ∈ g4, isHexDigitCode n = true)
    (h5 : ∀ n ∈ g5, isHexDigitCode n = true) :
    ∃ bs,
      (uuidParams
          (g1 ++ 45 :: (g2 ++ 45 :: (g3 ++ 45 :: (g4 ++ 45 :: g5))))).1
        = some bs
      ∧ bs.length = 16
      ∧ renderValue (Val.blob bs)
          = Val.text
            ((g1 ++ 45 :: (g2 ++ 45 :: (g3 ++ 45 :: (g4 ++ 45 :: g5)))).map
              lowerCode)
      ∧ (uuidParams
            (g1 ++ 45 :: (g2 ++ 45 :: (g3 ++ 45 :: (g4 ++ 45 :: g5))))).2
          = g1 ++ 45 :: (g2 ++ 45 :: (g3 ++ 45 :: (g4 ++ 45 :: g5))) := by
  have hcat : ∀ n ∈ g1 ++ (g2 ++ (g3 ++ (g4 ++ g5))),
      isHexDigitCode n = true := by
    intro n hn
    simp only [List.mem_append] at hn
    rcases hn with h | h | h | h | h
    · exact h1 n h
    · exact h2 n h
    · exact h3 n h
    · exact h4 n h
    · exact h5 n h
  have hstrip :
      stripDashes (g1 ++ 45 :: (g2 ++ 45 :: (g3 ++ 45 :: (g4 ++ 45 :: g5))))
        = g1 ++ (g2 ++ (g3 ++ (g4 ++ g5))) := by
    simp only [stripDashes, List.filter_append, List.filter_cons,
      decide_eq_true_eq]
    rw [filter_dash_of_hex h1, filter_dash_of_hex h2, filter_dash_of_hex h3,
      filter_dash_of_hex h4, filter_dash_of_hex h5]
    simp
  have hlen : (g1 ++ (g2 ++ (g3 ++ (g4 ++ g5)))).length = 32 := by
    simp [l1, l2, l3, l4, l5]
  obtain ⟨bs, hbs, henc, hbl⟩ :=
    hexPairs_roundTrip (g1 ++ (g2 ++ (g3 ++ (g4 ++ g5)))) hcat
      (by rw [hlen])
  have hbs16 : bs.length = 16 := by omega
  refine ⟨bs, ?_, hbs16, ?_, rfl⟩
  · show bytesFromhex (stripDashes _) = some bs
    rw [hstrip]
    show hexPairsWs _ = some bs
    rw [hexPairsWs_eq_hexPairs _
      (fun n hn => hexDigit_not_space (hcat n hn))]
    exact hbs
  · rw [show renderValue (Val.blob bs) = Val.text (formatUuid bs) by
      simp [renderValue, hbs16]]
    have hm : hexEncode bs
        = g1.map lowerCode ++ (g2.map lowerCode ++ (g3.map lowerCode
            ++ (g4.map lowerCode ++ g5.map lowerCode))) := by
      rw [henc]; simp [List.map_append]
    rw [formatUuid_groups (by simp [l1]) (by simp [l2]) (by simp [l3])
      (by simp [l4]) (by simp [l5]) hm]
    simp [List.map_append, lowerCode_dash]

/-- C5 witness: the round-trip at a concrete mixed-case identifier. -/
theorem c5_witness :
    ∃ bs,
      (uuidParams (strCodes "00112233-4455-6677-8899-AABBCCDDEEFF")).1
        = some bs
      ∧ bs.length = 16
      ∧ renderValue (Val.blob bs)
          = Val.text
            ((strCodes "00112233-4455-6677-8899-AABBCCDDEEFF").map lowerCode)
      ∧ (uuidParams (strCodes "00112233-4455-6677-8899-AABBCCDDEEFF")).2
          = strCodes "00112233-4455-6677-8899-AABBCCDDEEFF" := by
  have h := c5_render_decode_roundtrip
    (strCodes "00112233") (strCodes "4455") (strCodes "6677")
    (strCodes "8899") (strCodes "AABBCCDDEEFF")
    (by decide) (by decide) (by decide) (by decide) (by decide)
    (by decide) (by decide) (by decide) (by decide) (by decide)
  exact h

/-- C6 counterexample: the string `"abcd"` has the wrong length for an
identifier (4 hexadecimal digits instead of 32), yet `_uuid_params`
returns a (2-byte) binary form, not an absent one — `bytes.fromhex`
accepts any even number of hexadecimal digits. -/
theorem c6_counterexample :
    (uuidParams (strCodes "abcd")).1 = some [171, 205]
      ∧ (uuidParams (strCodes "abcd")).1 ≠ none := by
  constructor
  · decide
  · decide

/-- C6 (amended). The decode half of `_uuid_params` is total — it is a
plain function, every Python exception being absorbed into the `none`
component — and it returns the original string unchanged; whitespace
inside a byte pair also yields no binary form (`"a bcd"`); and for every
input free of ASCII whitespace — identifier strings never contain any —
the binary form is absent exactly when the hyphen-stripped input has an
odd number of digits or contains a non-hexadecimal digit.  (An
even-length hexadecimal string of the wrong total length yields a binary
form of the wrong byte length rather than an absent one.) -/
theorem c6_decode_total_amended :
    (∀ s : Codes, (uuidParams s).2 = s)
    ∧ (uuidParams (strCodes "a bcd")).1 = none
    ∧ ∀ s : Codes, (∀ n ∈ stripDashes s, isSpaceCode n = false) →
        ((uuidParams s).1 = none ↔
          ¬ ((stripDashes s).length % 2 = 0
              ∧ ∀ n ∈ stripDashes s, isHexDigitCode n = true)) := by
  refine ⟨fun s => rfl, by decide, ?_⟩
  intro s hws
  show bytesFromhex (stripDashes s) = none ↔ _
  rw [show bytesFromhex (stripDashes s) = hexPairs (stripDashes s) from
    hexPairsWs_eq_hexPairs (stripDashes s) hws]
  exact hexPairs_eq_none_iff (stripDashes s)

/-- C6 amended witness: a whitespace-free non-hexadecimal input, where
the absent binary form is exactly the failed-hex condition. -/
theorem c6_witness :
    (uuidParams (strCodes "zz-1")).2 = strCodes "zz-1"
    ∧ ((uuidParams (strCodes "zz-1")).1 = none ↔
        ¬ ((stripDashes (strCodes "zz-1")).length % 2 = 0
            ∧ ∀ n ∈ stripDashes (strCodes "zz-1"),
                isHexDigitCode n = true)) :=
  ⟨c6_decode_total_amended.1 (strCodes "zz-1"),
   c6_decode_total_amended.2.2 (strCodes "zz-1") (by decide)⟩

/-! ## Helper lemmas: sorting, limits, percentages -/

theorem mem_insertSorted {α : Type} {le : α → α → Bool} {x a : α}
    {l : List α} : a ∈ insertSorted le x l ↔ a = x ∨ a ∈ l := by
  induction l with
  | nil => simp [insertSorted]
  | cons y ys ih =>
    simp only [insertSorted]
    split
    · simp [List.mem_cons]
    · simp only [List.mem_cons, ih]
      tauto

theorem mem_sortRows {α : Type} {le : α → α → Bool} {a : α} {l : List α} :
    a ∈ sortRows le l ↔ a ∈ l := by
  induction l with
  | nil => simp [sortRows]
  | cons y ys ih =>
    simp only [sortRows, mem_insertSorted, List.mem_cons, ih]

theorem length_insertSorted {α : Type} {le : α → α → Bool} {x : α}
    {l : List α} : (insertSorted le x l).length = l.length + 1 := by
  induction l with
  | nil => rfl
  | cons y ys ih =>
    simp only [insertSorted]
    split
    · rfl
    · simp [ih]

theorem length_sortRows {α : Type} {le : α → α → Bool} {l : List α} :
    (sortRows le l).length = l.length := by
  induction l with
  | nil => rfl
  | cons y ys ih => simp [sortRows, length_insertSorted, ih]

theorem completionPct_of_zero (c : Int) : completionPct c 0 = 0 := by
  simp [completionPct]

/-! ## C7: status normalization and its round-trip -/

/-- C7. The status normalization behaves per the fixed table on each of
its tokens; any other non-empty status maps to the lowercase of the raw
value; and on the defined UI vocabulary the UI-to-storage map followed by
normalization is the identity. -/
theorem c7_status_roundtrip :
    (normalizeStatus (some (strCodes "IN_PROGRESS"))
        = some (strCodes "in-progress")
      ∧ normalizeStatus (some (strCodes "INPROGRESS"))
        = some (strCodes "in-progress")
      ∧ normalizeStatus (some (strCodes "DOING"))
        = some (strCodes "in-progress")
      ∧ normalizeStatus (some (strCodes "COMPLETED"))
        = some (strCodes "completed")
      ∧ normalizeStatus (some (strCodes "DONE"))
        = some (strCodes "completed")
      ∧ normalizeStatus (some (strCodes "PENDING"))
        = some (strCodes "pending")
      ∧ normalizeStatus (some (strCodes "TODO"))
        = some (strCodes "pending")
      ∧ normalizeStatus (some (strCodes "BLOCKED"))
        = some (strCodes "blocked")
      ∧ normalizeStatus (some (strCodes "CANCELLED"))
        = some (strCodes "cancelled")
      ∧ normalizeStatus (some (strCodes "DEFERRED"))
        = some (strCodes "deferred"))
    ∧ (lookupCodes dbStatusMap (strCodes "in-progress")
          = some (strCodes "IN_PROGRESS")
        ∧ normalizeStatus (some (strCodes "IN_PROGRESS"))
          = some (strCodes "in-progress")
      ∧ lookupCodes dbStatusMap (strCodes "completed")
          = some (strCodes "COMPLETED")
        ∧ normalizeStatus (some (strCodes "COMPLETED"))
          = some (strCodes "completed")
      ∧ lookupCodes dbStatusMap (strCodes "pending")
          = some (strCodes "PENDING")
        ∧ normalizeStatus (some (strCodes "PENDING"))
          = some (strCodes "pending")
      ∧ lookupCodes dbStatusMap (strCodes "blocked")
          = some (strCodes "BLOCKED")
        ∧ normalizeStatus (some (strCodes "BLOCKED"))
          = some (strCodes "blocked")
      ∧ lookupCodes dbStatusMap (strCodes "cancelled")
          = some (strCodes "CANCELLED")
        ∧ normalizeStatus (some (strCodes "CANCELLED"))
          = some (strCodes "cancelled")
      ∧ lookupCodes dbStatusMap (strCodes "deferred")
          = some (strCodes "DEFERRED")
        ∧ normalizeStatus (some (strCodes "DEFERRED"))
          = some (strCodes "deferred"))
    ∧ ∀ r : Codes, r ≠ [] →
        lookupCodes statusMapTable (pyUpper (pyStrip r)) = none →
        normalizeStatus (some r) = some (pyLower r) := by
  refine ⟨by decide, by decide, ?_⟩
  intro r hr hl
  simp [normalizeStatus, hr, normalizeStatusCodes, hl]

/-- C7 witness: the fallback branch at a status outside the table. -/
theorem c7_witness :
    normalizeStatus (some (strCodes "Urgent!"))
      = some (pyLower (strCodes "Urgent!")) :=
  c7_status_roundtrip.2.2 (strCodes "Urgent!") (by decide) (by decide)

/-! ## C2: the effective project of a task -/

/-- C2. Under the flat task query's join, the computed project of a task
is its own project reference when that is present (non-NULL), regardless
of any feature reference; when the project reference is absent it is the
joined feature's project reference; and when neither resolves (including
a feature reference that matches no feature row, and the featureless
case) it is NULL — the task is orphaned. -/
theorem c2_effective_project (fs : List FeatureRow) (t : TaskRow) :
    (∀ P : Val, P ≠ Val.null → t.project_id = P →
      effectiveProjectId fs t = P)
    ∧ (t.project_id = Val.null →
        ∀ F : FeatureRow, fs.find? (fun f => sqlEq t.feature_id f.id) = some F →
          effectiveProjectId fs t = F.project_id)
    ∧ (t.project_id = Val.null →
        fs.find? (fun f => sqlEq t.feature_id f.id) = none →
        effectiveProjectId fs t = Val.null)
    ∧ (t.feature_id = Val.null →
        fs.find? (fun f => sqlEq t.feature_id f.id) = none) := by
  refine ⟨?_, ?_, ?_, ?_⟩
  · intro P hP hp
    simp [effectiveProjectId, sqlCoalesce, hp, hP]
  · intro h F hF
    simp [effectiveProjectId, sqlCoalesce, h, hF]
  · intro h hF
    simp [effectiveProjectId, sqlCoalesce, h, hF]
  · intro h
    rw [List.find?_eq_none]
    intro f _
    simp [h, sqlEq]

/-- C2 witness: resolution through the feature at a concrete task with no
direct project reference. -/
theorem c2_witness :
    effectiveProjectId
      [{ id := Val.blob [1,2,3,4,5,6,7,8,9,10,11,12,13,14,15,16]
         project_id := Val.blob [9,9,9,9,9,9,9,9,9,9,9,9,9,9,9,9]
         name := Val.text (strCodes "f")
         status := Val.text (strCodes "PENDING")
         created_at := 0, modified_at := 0 }]
      { id := Val.blob [0,0,0,0,0,0,0,0,0,0,0,0,0,0,0,1]
        project_id := Val.null
        feature_id := Val.blob [1,2,3,4,5,6,7,8,9,10,11,12,13,14,15,16]
        title := Val.text (strCodes "t")
        summary := Val.null
        status := Val.text (strCodes "PENDING")
        priority := Val.null
        complexity := Val.int 5
        created_at := 0, modified_at := 0 }
      = Val.blob [9,9,9,9,9,9,9,9,9,9,9,9,9,9,9,9] := by
  have h := (c2_effective_project
    [{ id := Val.blob [1,2,3,4,5,6,7,8,9,10,11,12,13,14,15,16]
       project_id := Val.blob [9,9,9,9,9,9,9,9,9,9,9,9,9,9,9,9]
       name := Val.text (strCodes "f")
       status := Val.text (strCodes "PENDING")
       created_at := 0, modified_at := 0 }]
    { id := Val.blob [0,0,0,0,0,0,0,0,0,0,0,0,0,0,0,1]
      project_id := Val.null
      feature_id := Val.blob [1,2,3,4,5,6,7,8,9,10,11,12,13,14,15,16]
      title := Val.text (strCodes "t")
      summary := Val.null
      status := Val.text (strCodes "PENDING")
      priority := Val.null
      complexity := Val.int 5
      created_at := 0, modified_at := 0 }).2.1 rfl
    { id := Val.blob [1,2,3,4,5,6,7,8,9,10,11,12,13,14,15,16]
      project_id := Val.blob [9,9,9,9,9,9,9,9,9,9,9,9,9,9,9,9]
      name := Val.text (strCodes "f")
      status := Val.text (strCodes "PENDING")
      created_at := 0, modified_at := 0 } (by decide)
  exact h

/-! ## C8: invalid status values are rejected before any mutation -/

/-- C8. A status-update request whose value does not normalize into the
accepted vocabulary is answered with the 400 validation error, and the
database — every task row, timestamps included — is returned exactly as
it was: validation precedes any storage access. -/
theorem c8_invalid_status_rejected (db : DB) (taskId status : Codes)
    (now : Int)
    (h : pyReplaceChar (pyLower status) 95 45 ∉ validStatuses) :
    updateTaskStatus db taskId status now
      = (UpdateStatusResult.badRequest, db) := by
  simp only [updateTaskStatus]
  rw [if_neg h]

/-- C8 witness: the endpoint rejects `"urgent"` and leaves a one-task
database untouched. -/
theorem c8_witness :
    updateTaskStatus
      { projects := []
        features := []
        tasks := [{ id := Val.blob [0,0,0,0,0,0,0,0,0,0,0,0,0,0,0,1]
                    project_id := Val.null
                    feature_id := Val.null
                    title := Val.text (strCodes "t")
                    summary := Val.null
                    status := Val.text (strCodes "PENDING")
                    priority := Val.null
                    complexity := Val.int 5
                    created_at := 3, modified_at := 3 }]
        dependencies := []
        sections := [] }
      (strCodes "00000000-0000-0000-0000-000000000001")
      (strCodes "urgent") 99
      = (UpdateStatusResult.badRequest,
          { projects := []
            features := []
            tasks := [{ id := Val.blob [0,0,0,0,0,0,0,0,0,0,0,0,0,0,0,1]
                        project_id := Val.null
                        feature_id := Val.null
                        title := Val.text (strCodes "t")
                        summary := Val.null
                        status := Val.text (strCodes "PENDING")
                        priority := Val.null
                        complexity := Val.int 5
                        created_at := 3, modified_at := 3 }]
            dependencies := []
            sections := [] }) :=
  c8_invalid_status_rejected _ _ _ _ (by decide)

/-! ## C9: the task projection's title fallback and compatibility fields -/

theorem dget_dictFromRow (row : List (String × Val)) (k : String) :
    dget (dictFromRow row) k = (dget row k).map renderValue := by
  induction row with
  | nil => rfl
  | cons e rest ih =>
    simp only [dictFromRow, List.map_cons, dget]
    split
    · rfl
    · exact ih

theorem dget_cons_eq {k : String} {v : Val} {rest : List (String × Val)} :
    dget ((k, v) :: rest) k = some v := by
  simp [dget]

theorem dget_cons_ne {k q : String} {v : Val} {rest : List (String × Val)}
    (h : k ≠ q) : dget ((k, v) :: rest) q = dget rest q := by
  simp [dget, h]

/-- C9. For every raw task row whose `title` and `name` cells are both
absent, NULL or empty, the projected record's `title` is the empty string
(never NULL); and for every raw row whatsoever the projected
compatibility duplicates satisfy `name = title` and
`description = summary`. -/
theorem c9_title_fallback (row : List (String × Val)) :
    ((dget row "title" = none ∨ dget row "title" = some Val.null
        ∨ dget row "title" = some (Val.text [])) →
      (dget row "name" = none ∨ dget row "name" = some Val.null
        ∨ dget row "name" = some (Val.text [])) →
      dget (taskFromRow row) "title" = some (Val.text []))
    ∧ dget (taskFromRow row) "name" = dget (taskFromRow row) "title"
    ∧ dget (taskFromRow row) "description"
        = dget (taskFromRow row) "summary" := by
  refine ⟨?_, ?_, ?_⟩
  · intro ht hn
    have ht2 : truthyO (dget (dictFromRow row) "title") = false := by
      rw [dget_dictFromRow]
      rcases ht with h | h | h <;> simp [h, truthyO, truthy, renderValue]
    have hn2 : truthyO (dget (dictFromRow row) "name") = false := by
      rw [dget_dictFromRow]
      rcases hn with h | h | h <;> simp [h, truthyO, truthy, renderValue]
    have e1 : pyOr (dget (dictFromRow row) "title")
        (dget (dictFromRow row) "name") = dget (dictFromRow row) "name" := by
      unfold pyOr; rw [ht2]; simp
    have hx : (pyOr (pyOr (dget (dictFromRow row) "title")
          (dget (dictFromRow row) "name"))
        (some (Val.text []))).getD (Val.text []) = Val.text [] := by
      rw [e1]; unfold pyOr; rw [hn2]; simp
    simp only [taskFromRow]
    split
    · simp +decide only [dget, ite_true, ite_false]
      rw [hx]
    · simp +decide only [dget, ite_true, ite_false]
      rw [hx]
  · simp only [taskFromRow]
    split
    · simp +decide only [dget, ite_true, ite_false]
    · simp +decide only [dget, ite_true, ite_false]
  · simp only [taskFromRow]
    split
    · simp +decide only [dget, ite_true, ite_false]
    · simp +decide only [dget, ite_true, ite_false]

/-- C9 witness: a row with neither `title` nor `name` projects to the
empty-string title. -/
theorem c9_witness :
    dget (taskFromRow [("status", Val.text (strCodes "PENDING")),
      ("summary", Val.null)]) "title" = some (Val.text []) :=
  (c9_title_fallback [("status", Val.text (strCodes "PENDING")),
      ("summary", Val.null)]).1 (Or.inl rfl) (Or.inl rfl)

/-! ## C1: completion percentages -/

/-- C1. Every derived completion percentage of the projects summary and
of the project overview is the integer `round(completed / total * 100)`
of its own counts (`completionPct`, which rounds the exact ratio to the
nearest integer, ties to even) and is `0` whenever the corresponding
total is `0` — the guard means no division by zero and no not-a-number
ever arises. -/
theorem c1_completion_percentages :
    (∀ (db : DB) (r : SummaryRecord), r ∈ getProjectsSummary db →
      (r.task_completion_percentage
          = completionPct r.completed_task_count r.task_count
        ∧ (r.task_count = 0 → r.task_completion_percentage = 0))
      ∧ (r.complexity_completion_percentage
          = completionPct r.completed_complexity r.total_complexity
        ∧ (r.total_complexity = 0 → r.complexity_completion_percentage = 0))
      ∧ (r.feature_completion_percentage
          = completionPct r.completed_feature_count r.feature_count
        ∧ (r.feature_count = 0 → r.feature_completion_percentage = 0)))
    ∧ (∀ (db : DB) (pid : Codes) (days : Option Int) (now : Int)
        (ov : Overview), getProjectOverview db pid days now = some ov →
      (ov.stats.task_completion_percentage
          = completionPct ov.stats.total_completed_count
              ov.stats.total_task_count
        ∧ (ov.stats.total_task_count = 0
            → ov.stats.task_completion_percentage = 0))
      ∧ (ov.stats.complexity_completion_percentage
          = completionPct (overviewCompletedComplexity db (uuidTriple pid).1)
              (overviewTotalComplexity db (uuidTriple pid).1)
        ∧ (overviewTotalComplexity db (uuidTriple pid).1 = 0
            → ov.stats.complexity_completion_percentage = 0))
      ∧ (ov.stats.feature_completion_percentage
          = completionPct (overviewCompletedFeatures db (uuidTriple pid).1)
              (overviewTotalFeatures db (uuidTriple pid).1)
        ∧ (overviewTotalFeatures db (uuidTriple pid).1 = 0
            → ov.stats.feature_completion_percentage = 0))) := by
  constructor
  · intro db r hr
    unfold getProjectsSummary at hr
    rcases List.mem_map.mp hr with ⟨p, _, rfl⟩
    refine ⟨⟨rfl, ?_⟩, ⟨rfl, ?_⟩, ⟨rfl, ?_⟩⟩
    · intro h0
      rw [show (summaryRecordOf db p).task_completion_percentage
          = completionPct (summaryRecordOf db p).completed_task_count
              (summaryRecordOf db p).task_count from rfl, h0]
      simp [completionPct]
    · intro h0
      rw [show (summaryRecordOf db p).complexity_completion_percentage
          = completionPct (summaryRecordOf db p).completed_complexity
              (summaryRecordOf db p).total_complexity from rfl, h0]
      simp [completionPct]
    · intro h0
      rw [show (summaryRecordOf db p).feature_completion_percentage
          = completionPct (summaryRecordOf db p).completed_feature_count
              (summaryRecordOf db p).feature_count from rfl, h0]
      simp [completionPct]
  · intro db pid days now ov h
    unfold getProjectOverview at h
    cases hf : db.projects.find? (fun p => matchesUuid p.id (uuidTriple pid)) with
    | none => rw [hf] at h; cases h
    | some p =>
      rw [hf] at h
      injection h with h2
      subst h2
      refine ⟨⟨rfl, ?_⟩, ⟨rfl, ?_⟩, ⟨rfl, ?_⟩⟩
      · intro h0
        have h1 : overviewTotalTaskCount db (uuidTriple pid).1 = 0 := h0
        rw [show (buildOverview db pid days now p).stats.task_completion_percentage
            = completionPct (overviewTotalCompletedCount db (uuidTriple pid).1)
                (overviewTotalTaskCount db (uuidTriple pid).1) from rfl, h1]
        simp [completionPct]
      · intro h0
        rw [show (buildOverview db pid days now p).stats.complexity_completion_percentage
            = completionPct (overviewCompletedComplexity db (uuidTriple pid).1)
                (overviewTotalComplexity db (uuidTriple pid).1) from rfl, h0]
        simp [completionPct]
      · intro h0
        rw [show (buildOverview db pid days now p).stats.feature_completion_percentage
            = completionPct (overviewCompletedFeatures db (uuidTriple pid).1)
                (overviewTotalFeatures db (uuidTriple pid).1) from rfl, h0]
        simp [completionPct]

/-- C1 witness: the sample database's summary record (50% task
completion, 80% complexity completion, 0% feature completion with zero
features). -/
theorem c1_witness :
    (sampleSummaryRecord.task_completion_percentage
        = completionPct sampleSummaryRecord.completed_task_count
            sampleSummaryRecord.task_count
      ∧ (sampleSummaryRecord.task_count = 0
          → sampleSummaryRecord.task_completion_percentage = 0))
    ∧ (sampleSummaryRecord.complexity_completion_percentage
        = completionPct sampleSummaryRecord.completed_complexity
            sampleSummaryRecord.total_complexity
      ∧ (sampleSummaryRecord.total_complexity = 0
          → sampleSummaryRecord.complexity_completion_percentage = 0))
    ∧ (sampleSummaryRecord.feature_completion_percentage
        = completionPct sampleSummaryRecord.completed_feature_count
            sampleSummaryRecord.feature_count
      ∧ (sampleSummaryRecord.feature_count = 0
          → sampleSummaryRecord.feature_completion_percentage = 0)) :=
  c1_completion_percentages.1 sampleDB sampleSummaryRecord (by decide)

/-! ## C3: the overview's two aggregation passes -/

/-- C3. When a recency window is supplied, the overview's three
completion percentages (and the unrestricted totals behind them, and the
feature aggregates) coincide with those of the windowless request — they
are computed from the unrestricted queries — while the displayed task
list is restricted to the window; the restricted list, its counts and the
unrestricted percentages are all fields of the one response. -/
theorem c3_overview_side_by_side (db : DB) (pid : Codes) (d now : Int)
    (ov : Overview)
    (h : getProjectOverview db pid (some d) now = some ov) :
    ∃ ov0 : Overview,
      getProjectOverview db pid none now = some ov0
      ∧ ov.stats.task_completion_percentage
          = ov0.stats.task_completion_percentage
      ∧ ov.stats.complexity_completion_percentage
          = ov0.stats.complexity_completion_percentage
      ∧ ov.stats.feature_completion_percentage
          = ov0.stats.feature_completion_percentage
      ∧ ov.stats.total_task_count = ov0.stats.total_task_count
      ∧ ov.stats.total_completed_count = ov0.stats.total_completed_count
      ∧ ov.features = ov0.features
      ∧ ov.stats.task_count = ov.tasks.length
      ∧ ov.stats.completed_count
          = (ov.tasks.filter
              (fun t => t.status = Val.text (strCodes "completed"))).length
      ∧ ∀ t ∈ ov.tasks, now - d ≤ t.modified_at := by
  unfold getProjectOverview at h
  cases hf : db.projects.find? (fun p => matchesUuid p.id (uuidTriple pid)) with
  | none => rw [hf] at h; cases h
  | some p =>
    rw [hf] at h
    injection h with h2
    subst h2
    refine ⟨buildOverview db pid none now p, ?_, rfl, rfl, rfl, rfl, rfl,
      rfl, rfl, rfl, ?_⟩
    · unfold getProjectOverview
      rw [hf]
    · intro t ht
      have ht2 : t ∈ overviewDisplayTasks db (uuidTriple pid).1 (some d) now :=
        ht
      unfold overviewDisplayTasks at ht2
      rcases List.mem_map.mp ht2 with ⟨raw, hraw, rfl⟩
      have hraw2 := mem_sortRows.mp (List.mem_of_mem_take hraw)
      have hp := List.of_mem_filter hraw2
      have hw : overviewWindowOk (some d) now raw = true := by
        rcases Bool.and_eq_true .. |>.mp hp with ⟨_, h2⟩
        exact h2
      exact of_decide_eq_true hw

/-- C3 witness: at the one-project database, the windowed overview
reports the same (zero) percentages as the windowless one and an empty
in-window task list. -/
theorem c3_witness :
    ∃ ov0 : Overview,
      getProjectOverview emptyProjectDB sampleProjectIdStr none 0 = some ov0
      ∧ sampleOverview.stats.task_completion_percentage
          = ov0.stats.task_completion_percentage
      ∧ sampleOverview.stats.complexity_completion_percentage
          = ov0.stats.complexity_completion_percentage
      ∧ sampleOverview.stats.feature_completion_percentage
          = ov0.stats.feature_completion_percentage
      ∧ sampleOverview.stats.total_task_count = ov0.stats.total_task_count
      ∧ sampleOverview.stats.total_completed_count
          = ov0.stats.total_completed_count
      ∧ sampleOverview.features = ov0.features
      ∧ sampleOverview.stats.task_count = sampleOverview.tasks.length
      ∧ sampleOverview.stats.completed_count
          = (sampleOverview.tasks.filter
              (fun t => t.status = Val.text (strCodes "completed"))).length
      ∧ ∀ t ∈ sampleOverview.tasks, 0 - 7 ≤ t.modified_at :=
  c3_overview_side_by_side emptyProjectDB sampleProjectIdStr 7 0
    sampleOverview (by decide)

/-! ## C4: the overview's sub-queries match only the binary encoding -/

/-- C4 counterexample: in `mixedEncodingDB` the single feature's project
reference is stored in hyphenated text form, and it does satisfy the
three-way identifier match for the requested project — yet the overview
reports `feature_count = 0` and an empty feature list, because the
sub-queries compare only against the binary form. -/
theorem c4_counterexample :
    (getProjectOverview mixedEncodingDB sampleProjectIdStr none 0).map
        (fun ov => ov.stats.feature_count) = some 0
    ∧ (getProjectOverview mixedEncodingDB sampleProjectIdStr none 0).map
        (fun ov => ov.features) = some []
    ∧ mixedEncodingDB.features = [textRefFeature]
    ∧ matchesUuid textRefFeature.project_id (uuidTriple sampleProjectIdStr)
        = true := by
  refine ⟨by decide, by decide, rfl, by decide⟩

/-- C4 (amended). Only the overview's initial project lookup uses the
multi-form identifier match; every sub-query compares the stored
reference columns against the 16-byte binary form of the request
identifier alone, so a feature or task whose reference is stored in text
form is excluded from the overview's counts and percentages (a TEXT
value never compares equal to a BLOB or NULL parameter under SQL `=`). -/
theorem c4_amended_binary_only (db : DB) (pid : Codes) (days : Option Int)
    (now : Int) (ov : Overview)
    (h : getProjectOverview db pid days now = some ov) :
    ov.stats.feature_count
        = (dedupByKey (fun f => f.id)
            (db.features.filter
              (fun f => sqlEq f.project_id (uuidTriple pid).1))).length
    ∧ ov.stats.total_task_count
        = (db.tasks.filter (overviewInProj db (uuidTriple pid).1)).length
    ∧ (∀ (s : Codes) (b : List Nat), sqlEq (Val.text s) (Val.blob b) = false)
    ∧ (∀ s : Codes, sqlEq (Val.text s) Val.null = false) := by
  unfold getProjectOverview at h
  cases hf : db.projects.find? (fun p => matchesUuid p.id (uuidTriple pid)) with
  | none => rw [hf] at h; cases h
  | some p =>
    rw [hf] at h
    injection h with h2
    subst h2
    refine ⟨?_, rfl, fun _ _ => rfl, fun _ => rfl⟩
    show (overviewFeatureEntries db (uuidTriple pid).1).length = _
    unfold overviewFeatureEntries overviewFeatureRows
    rw [List.length_map, length_sortRows]

/-- C4 amended witness: the mixed-encoding database, where the overview
counts zero features though one feature references the project in text
form. -/
theorem c4_witness :
    sampleOverview.stats.feature_count
        = (dedupByKey (fun f => f.id)
            (emptyProjectDB.features.filter
              (fun f => sqlEq f.project_id
                (uuidTriple sampleProjectIdStr).1))).length
    ∧ sampleOverview.stats.total_task_count
        = (emptyProjectDB.tasks.filter
            (overviewInProj emptyProjectDB
              (uuidTriple sampleProjectIdStr).1)).length
    ∧ (∀ (s : Codes) (b : List Nat), sqlEq (Val.text s) (Val.blob b) = false)
    ∧ (∀ s : Codes, sqlEq (Val.text s) Val.null = false) :=
  c4_amended_binary_only emptyProjectDB sampleProjectIdStr none 0
    sampleOverview (by decide)

/-! ## C10: the flat task list's limit -/

/-- C10 counterexample: a call with `limit = -1` returns more rows than
the limit — SQLite treats a negative LIMIT as "no bound", so the claim's
"at most the limit parameter" fails for negative limits. -/
theorem c10_counterexample :
    ¬ (((getTasks sampleDB none none none (-1)).length : Int) ≤ -1)
    ∧ (getTasks sampleDB none none none (-1)).length = 2 := by
  refine ⟨by decide, by decide⟩

/-- C10 (amended). The flat task list returns at most `limit` rows
whenever the supplied limit is nonnegative; when no limit is supplied the
default is 1000, so at most 1000 rows are returned; a negative limit
disables the cap entirely (SQLite LIMIT semantics) and every matching
row comes back. -/
theorem c10_limit_amended :
    (∀ (db : DB) (f s p : Option Codes) (limit : Int), 0 ≤ limit →
      ((getTasks db f s p limit).length : Int) ≤ limit)
    ∧ (∀ (db : DB) (f s p : Option Codes),
        getTasksDefault db f s p = getTasks db f s p 1000
        ∧ ((getTasksDefault db f s p).length : Int) ≤ 1000)
    ∧ (∀ (db : DB) (f s p : Option Codes) (limit : Int), limit < 0 →
        (getTasks db f s p limit).length
          = (db.tasks.filter (taskFilterOk f s p)).length) := by
  have main : ∀ (db : DB) (f s p : Option Codes) (limit : Int),
      0 ≤ limit → ((getTasks db f s p limit).length : Int) ≤ limit := by
    intro db f s p limit hl
    have hneg : ¬ limit < 0 := by omega
    simp only [getTasks, applyLimit, hneg, if_false, List.length_map]
    have := List.length_take_le limit.toNat
      (sortRows (fun a b => decide (b.created_at ≤ a.created_at))
        (db.tasks.filter (taskFilterOk f s p)))
    omega
  refine ⟨main, fun db f s p => ⟨rfl, main db f s p 1000 (by omega)⟩, ?_⟩
  intro db f s p limit hl
  simp only [getTasks, applyLimit, hl, if_true, List.length_map,
    length_sortRows]

/-- C10 amended witness: a nonnegative limit bounds the row count at the
sample database. -/
theorem c10_witness :
    ((getTasks sampleDB none none none 1).length : Int) ≤ 1 :=
  c10_limit_amended.1 sampleDB none none none 1 (by omega)

end Dashboard
